import Mathlib

/-!
Shallow embedding of the DayMate backend (fms-faisal/DayMate) for checking the
natural-language specification against the code.

Sources embedded:
  - src/backend/app/services/ai_agent.py   (generate_day_plan, generate_fallback_plan)
  - src/backend/app/services/news.py       (get_local_news, get_fallback_news)
  - src/backend/app/services/traffic.py    (RealTimeTrafficService._fetch_tomtom_traffic,
                                            congestion classification, lines 392-410)
  - src/backend/app/main.py                (generate_plan orchestrator)

Conventions:
  - Python floats are embedded as rationals.
  - Python dicts returned by the services are embedded as structures whose
    optional keys are `Option` fields; `d.get(k, v)` becomes `field.getD v`.
  - Python string falsiness (`x or d`) is `pyor`.
  - A Python function that can raise returns `Except String α`
    (`.error msg` = an uncaught exception with that message).
  - Network calls are oracles: each service takes its provider outcome as an
    explicit argument, so code after the response is embedded faithfully while
    the transport itself stays abstract.
-/

/-! ### Python string containment (`pat in s`) -/

/-- Python substring containment `pat in s`, read on the underlying character
lists. -/
def ctns (s pat : String) : Prop := pat.data <:+: s.data

instance (s pat : String) : Decidable (ctns s pat) :=
  List.decidableInfix pat.data s.data

/-- Executable form of `ctns`, used inside embedded code for Python `in`. -/
def ctnsB (s pat : String) : Bool := decide (ctns s pat)

theorem ctnsB_iff {s pat : String} : ctnsB s pat = true ↔ ctns s pat := by
  simp [ctnsB]

theorem ctns_append_left {x pat : String} (y : String) (h : ctns x pat) :
    ctns (x ++ y) pat := by
  unfold ctns at *
  rw [String.data_append]
  exact h.trans (List.prefix_append _ _).isInfix

theorem ctns_append_right {y pat : String} (x : String) (h : ctns y pat) :
    ctns (x ++ y) pat := by
  unfold ctns at *
  rw [String.data_append]
  exact h.trans (List.suffix_append _ _).isInfix

/-- A string does not contain a pattern with more characters than itself has. -/
theorem ctns_ne_empty {s pat : String} (h : ctns s pat) (hp : pat.data ≠ []) :
    s ≠ "" := by
  intro hs
  subst hs
  exact hp (List.eq_nil_of_infix_nil h)

/-- Python `"\n".join(parts)`. -/
def joinNL : List String → String
  | [] => ""
  | [a] => a
  | a :: b :: rest => a ++ "\n" ++ joinNL (b :: rest)

theorem ctns_joinNL {l : List String} {a pat : String}
    (ha : a ∈ l) (h : ctns a pat) : ctns (joinNL l) pat := by
  induction l with
  | nil => cases ha
  | cons x xs ih =>
    cases xs with
    | nil =>
      rcases List.mem_singleton.mp ha with rfl
      simpa [joinNL] using h
    | cons y ys =>
      rcases List.mem_cons.mp ha with rfl | hmem
      · exact ctns_append_left _ (ctns_append_left _ h)
      · exact ctns_append_right _ (ih hmem)

/-! ### Python value helpers -/

/-- Python `str.lower()` (structural, so that closed instances evaluate in
the kernel). -/
def pyLower (s : String) : String := String.mk (s.data.map Char.toLower)

/-- Python `str.strip()` (structural). -/
def pyStrip (s : String) : String :=
  String.mk (((s.data.dropWhile Char.isWhitespace).reverse.dropWhile
    Char.isWhitespace).reverse)

/-- Python `x or d` for an optional string (`None` and `""` are falsy). -/
def pyor (x : Option String) (d : String) : String :=
  match x with
  | some s => if s = "" then d else s
  | none => d

/-! ### Data shapes (models.py and the service dicts) -/

/-- A news article dict as built by `news.py` (all keys always present; the
optional ones can hold `None`). -/
structure Article where
  title : String
  description : Option String
  url : String
  source : String
  published_at : Option String
deriving DecidableEq

/-- A weather dict as consumed by `ai_agent.py` via `.get` with defaults
(only the keys the agent reads are listed; a missing key is `none`).
The Python truthiness edge case of a completely empty dict is outside this
model: the weather service never produces `{}`. -/
structure WeatherDict where
  error : Bool := false
  temp : Option ℚ := none
  feels_like : Option ℚ := none
  humidity : Option Int := none
  condition : Option String := none
  description : Option String := none
  icon : Option String := none
  wind_speed : Option ℚ := none
  city_name : Option String := none
  country : Option String := none
  message : Option String := none
deriving DecidableEq

/-! ### ai_agent.generate_fallback_plan (ai_agent.py lines 250-331) -/

/-- `generate_fallback_plan(weather_data, news_data, city, has_weather)`:
rule-based plan used when the Gemini service is unavailable.  Transcribed
line by line from ai_agent.py lines 250-331; the returned text is
`"\n".join(plan_parts)`. -/
def generate_fallback_plan (weather_data : Option WeatherDict)
    (news_data : List Article) (city : Option String) (has_weather : Bool) :
    String :=
  let useW := has_weather && weather_data.isSome
  let temp : ℚ :=
    match weather_data, useW with
    | some w, true => w.temp.getD 20
    | _, _ => 20
  let condition : String :=
    match weather_data, useW with
    | some w, true => pyLower (w.condition.getD "Clear")
    | _, _ => "unknown"
  let location : String :=
    match weather_data, useW with
    | some w, true => w.city_name.getD (pyor city "your area")
    | _, _ => pyor city "your area"
  let header := "## Daily Plan for " ++ location ++ "\n"
  let notePart : List String :=
    if !has_weather then
      ["*Note: Weather data unavailable. Here are flexible recommendations:*\n"]
    else []
  let morning : List String :=
    if !has_weather then
      ["- Check the weather before heading out",
       "- Keep an umbrella handy just in case",
       "- Great time for morning exercise or a walk"]
    else if ctnsB condition "rain" || ctnsB condition "storm" ||
        ctnsB condition "drizzle" then
      ["- Don\x27t forget your umbrella! Rain is expected today.",
       "- Consider indoor exercise like yoga or home workout."]
    else if temp > 30 then
      ["- Start your day early to avoid peak heat.",
       "- Stay hydrated - keep water with you."]
    else if temp < 10 then
      ["- Bundle up! It\x27s cold outside.",
       "- A warm breakfast will help start your day right."]
    else
      ["- Great weather for a morning walk or jog!",
       "- Enjoy breakfast outdoors if possible."]
  let afternoon : List String :=
    if !has_weather then
      ["- Good time for errands and tasks",
       "- Plan both indoor and outdoor options"]
    else if ctnsB condition "rain" || ctnsB condition "storm" then
      ["- Good time for indoor activities: reading, movies, or catching up on work.",
       "- If you must go out, plan trips between rain showers."]
    else if temp > 30 then
      ["- Stay indoors during peak sun hours (12-3 PM).",
       "- Visit air-conditioned places like malls or libraries."]
    else if ctnsB condition "clear" || ctnsB condition "sun" then
      ["- Perfect weather for outdoor activities!",
       "- Consider a lunch picnic or outdoor café."]
    else
      ["- Good time for errands and outdoor tasks.",
       "- Check local events happening today."]
  let evening : List String :=
    if !has_weather then
      ["- Perfect time for dinner plans or relaxation",
       "- Consider both indoor and outdoor dining options"]
    else if ctnsB condition "rain" then
      ["- Cozy evening indoors - perfect for cooking or movies."]
    else if temp > 25 then
      ["- Enjoy the cooler evening air with a walk."]
    else
      ["- Great time for dinner out or evening activities."]
  let newsPart : List String :=
    match news_data with
    | [] => []
    | a :: _ =>
      if a.title ≠ "" then
        ["\n### Stay Informed", "- Check local news: " ++ a.title]
      else []
  joinNL ([header] ++ notePart ++ ["### Morning"] ++ morning ++
    ["\n### Afternoon"] ++ afternoon ++ ["\n### Evening"] ++ evening ++
    newsPart)

/-! ### news.get_local_news and news.get_fallback_news (news.py lines 96-183) -/

/-- A feed entry as read from the RSS provider (`entry.title`, optional
`entry.summary`, `entry.link`, optional `entry.source.title`, optional
`entry.published`). -/
structure FeedEntry where
  title : String
  summary : Option String
  link : String
  source : Option String
  published : Option String
deriving DecidableEq

/-- The dict built for each feed entry in `get_local_news` (news.py 129-135). -/
def entryToArticle (e : FeedEntry) : Article :=
  { title := e.title
    description := some (e.summary.getD "Click to read more.")
    url := e.link
    source := e.source.getD "Google News"
    published_at := e.published }

/-- `get_fallback_news(city)` (news.py lines 151-183): three generic
placeholders referencing the city. -/
def get_fallback_news (city : String) : List Article :=
  [{ title := "Local events and activities in " ++ city
     description := some "Check local event listings for activities in your area."
     url := "#", source := "DayMate", published_at := none },
   { title := "Traffic and transportation updates for " ++ city
     description := some "Stay informed about local traffic conditions."
     url := "#", source := "DayMate", published_at := none },
   { title := "Community news from " ++ city
     description := some "Connect with local community happenings."
     url := "#", source := "DayMate", published_at := none }]

/-- Result dict of `get_local_news` (`error`, optional `message`,
`articles`). -/
structure NewsResult where
  error : Bool
  message : Option String
  articles : List Article
deriving DecidableEq

/-- `get_local_news(city, page_size=5)` (news.py lines 96-148).  The feed
fetch is the oracle argument: `.error e` is an exception raised while
fetching/parsing, `.ok entries` the parsed `feed.entries`. -/
def get_local_news (feed : Except String (List FeedEntry)) (city : String)
    (page_size : Nat := 5) : NewsResult :=
  match feed with
  | .error e =>
    { error := true
      message := some ("News service unavailable: " ++ e)
      articles := get_fallback_news city }
  | .ok entries =>
    if entries.isEmpty then
      { error := false
        message := some ("No news found for " ++ city)
        articles := get_fallback_news city }
    else
      { error := false
        message := none
        articles := (entries.take page_size).map entryToArticle }

/-! ### traffic congestion classification (traffic.py lines 392-410) -/

/-- The guarded speed ratio of `_fetch_tomtom_traffic`: the division
`current_speed / free_flow_speed` is performed only under the
`free_flow_speed > 0` test (traffic.py line 397). -/
def flow_speed_ratio (current_speed free_flow_speed : ℚ) : Option ℚ :=
  if free_flow_speed > 0 then some (current_speed / free_flow_speed) else none

/-- Threshold classification of a speed ratio (traffic.py lines 399-408). -/
def classify_speed_ratio (speed_ratio : ℚ) : String :=
  if speed_ratio ≥ 0.9 then "free"
  else if speed_ratio ≥ 0.7 then "light"
  else if speed_ratio ≥ 0.5 then "moderate"
  else if speed_ratio ≥ 0.3 then "heavy"
  else "jammed"

/-- `congestion_level` computed for one TomTom flow segment
(traffic.py lines 396-410): ratio thresholds when `free_flow_speed > 0`,
otherwise `"free"` with no division. -/
def tomtom_congestion_level (current_speed free_flow_speed : ℚ) : String :=
  match flow_speed_ratio current_speed free_flow_speed with
  | some r => classify_speed_ratio r
  | none => "free"

/-! ### traffic dicts and the alert synthesis of main.generate_plan -/

/-- A road-condition dict (`_road_to_dict`, traffic.py lines 516-526). -/
structure RoadCondDict where
  road_name : String
  congestion_level : String
  speed_kmh : ℚ
  normal_speed_kmh : ℚ
  incident_type : Option String := none
  description : Option String := none
  last_updated : String
deriving DecidableEq

/-- An incident dict (`_incident_to_dict`, traffic.py lines 528-539). -/
structure IncidentDict where
  incident_type : String
  severity : String
  road_name : String
  location : String
  description : String
  start_time : String
  estimated_end_time : Option String := none
  delay_minutes : Option Int := none
deriving DecidableEq

/-- A traffic/emergency alert dict (shape of models.TrafficAlert). -/
structure AlertDict where
  title : String
  description : Option String
  url : String
  source : String
  published_at : Option String
  alert_type : String
  priority : String
deriving DecidableEq

/-- Python single-word `str.title()` (upper-case first character,
lower-case the rest). -/
def py_title_word (s : String) : String :=
  match s.data with
  | [] => ""
  | c :: cs => String.mk (c.toUpper :: cs.map Char.toLower)

/-- Python `s.replace("_", " ").title()` for the incident-type labels. -/
def py_title_words (s : String) : String :=
  String.intercalate " " ((s.splitOn "_").map py_title_word)

/-- Approximation of the Python float formatting used only inside alert
description text (content never branched on). -/
def qToStr (q : ℚ) : String := toString q

/-- Loop body of main.py lines 154-169: alerts synthesized from one road
condition (one alert for congestion heavy/jammed, none otherwise). -/
def alertsFromCondition (data_source : String) (c : RoadCondDict) :
    List AlertDict :=
  if c.congestion_level = "heavy" ∨ c.congestion_level = "jammed" then
    [{ title := py_title_word c.congestion_level ++ " traffic on " ++ c.road_name
       description := some ("Current speed: " ++ qToStr c.speed_kmh ++
         " km/h (normal: " ++ qToStr c.normal_speed_kmh ++ " km/h)")
       url := "#"
       source := data_source
       published_at := some c.last_updated
       alert_type := "traffic"
       priority := if c.congestion_level = "jammed" then "high" else "medium" }]
  else []

/-- Loop body of main.py lines 172-185: the alert synthesized from one
incident. -/
def alertFromIncident (data_source : String) (i : IncidentDict) : AlertDict :=
  { title := py_title_words i.incident_type ++ " on " ++ i.road_name
    description := some i.description
    url := "#"
    source := data_source
    published_at := some i.start_time
    alert_type :=
      if i.incident_type = "accident" ∨ i.incident_type = "road_closure" then
        "emergency"
      else "traffic"
    priority := if i.severity = "critical" then "high" else "medium" }

/-! ### ai_agent.generate_day_plan (ai_agent.py lines 8-247) -/

/-- The result dict of `generate_day_plan` (keys `error`, optional `message`,
`plan`). -/
structure PlanResult where
  error : Bool
  message : Option String
  plan : String
deriving DecidableEq

/-- Outcome of the Gemini HTTP POST, the oracle for the model call:
an HTTP status with the candidate text extracted from the body when the
response parses (`none` when `candidates`/`content`/`parts` is missing),
a `requests.Timeout`, or another exception. -/
inductive GeminiOutcome where
  | http (status : Nat) (candidateText : Option String)
  | timeout
  | exn (msg : String)
deriving DecidableEq

/-- Falsiness/placeholder test on the `GEMINI_API_KEY` value
(`if not api_key or api_key == "your_gemini_api_key_here"`, line 34). -/
def keyMissing : Option String → Bool
  | none => true
  | some k => k == "" || k == "your_gemini_api_key_here"

/-- Number of parameters of `generate_fallback_plan` (ai_agent.py line 250:
`weather_data`, `news_data`, `city`, `has_weather`). -/
def fallbackParamCount : Nat := 4

/-- Python positional-argument binding for a call to
`generate_fallback_plan`: binding more positional arguments than the
function has parameters raises `TypeError` before the body runs. -/
def callFallback (argCount : Nat) (value : String) : Except String String :=
  if argCount ≤ fallbackParamCount then .ok value
  else .error
    "TypeError: generate_fallback_plan() takes from 2 to 4 positional arguments but 5 were given"

/-- `generate_day_plan(weather_data, news_data, city, profile, preferences,
traffic_alerts)` (ai_agent.py lines 8-247).  `profile`, `preferences` and
`traffic_alerts` only shape the prompt sent to the model, which is abstracted
by the `gemini` oracle, so they carry no further behaviour here; the
no-API-key branch (lines 34-40) calls `generate_fallback_plan` with FIVE
positional arguments (`weather_data, news_data, city, has_weather,
traffic_alerts`), which is embedded through `callFallback 5`.  All other
fallback call sites (lines 200, 207, 215, 232, 239, 246) pass four. -/
def generate_day_plan (api_key : Option String) (gemini : GeminiOutcome)
    (weather_data : Option WeatherDict) (news_data : List Article)
    (city : Option String) : Except String PlanResult :=
  let has_weather :=
    match weather_data with
    | some w => !w.error
    | none => false
  let fb := generate_fallback_plan weather_data news_data city has_weather
  if keyMissing api_key then
    (callFallback 5 fb).map fun p =>
      { error := true
        message := some "AI API key not configured. Using basic recommendations."
        plan := p }
  else
    match gemini with
    | .http status text =>
      if status = 400 then
        .ok { error := true, message := some "Invalid request to AI service.", plan := fb }
      else if status = 403 then
        .ok { error := true, message := some "AI API key invalid or quota exceeded.", plan := fb }
      else if status ≠ 200 then
        .ok { error := true
              message := some "AI service temporarily unavailable. Using basic recommendations."
              plan := fb }
      else
        match text with
        | some t => .ok { error := false, message := none, plan := pyStrip t }
        | none =>
          .ok { error := true
                message := some "Could not parse AI response. Using basic recommendations."
                plan := fb }
    | .timeout =>
      .ok { error := true
            message := some "AI service timed out. Using basic recommendations."
            plan := fb }
    | .exn _ =>
      .ok { error := true
            message := some "AI service error. Using basic recommendations."
            plan := fb }

/-! ### main.generate_plan (main.py lines 62-278) -/

/-- The success dict of the weather service (weather.py lines 135-148 and
262-275): every key present. -/
structure WeatherOk where
  temp : ℚ
  feels_like : ℚ
  humidity : Int
  condition : String
  description : String
  icon : String
  wind_speed : ℚ
  city_name : String
  country : String
deriving DecidableEq

/-- The dict returned by a weather lookup: a success dict, or an error dict
carrying an optional `message` (read back via `.get("message", ...)`). -/
inductive WeatherResult where
  | ok (w : WeatherOk)
  | err (message : Option String)
deriving DecidableEq

/-- Conversion of a weather success dict to the dict shape the AI agent
reads (all keys present). -/
def weatherOkToDict (w : WeatherOk) : WeatherDict :=
  { error := false
    temp := some w.temp
    feels_like := some w.feels_like
    humidity := some w.humidity
    condition := some w.condition
    description := some w.description
    icon := some w.icon
    wind_speed := some w.wind_speed
    city_name := some w.city_name
    country := some w.country
    message := none }

/-- The dict returned by `get_realtime_traffic`: on success road conditions,
incidents and metadata (metadata keys read back via `.get` with defaults);
on failure an optional `message`. -/
inductive TrafficResult where
  | ok (road_conditions : List RoadCondDict) (incidents : List IncidentDict)
      (data_source : Option String) (last_updated : Option String)
      (is_simulated : Bool)
  | err (message : Option String)
deriving DecidableEq

/-- The dict returned by `get_traffic_alerts` (news.py lines 24-93). -/
structure TrafficNewsResult where
  error : Bool
  alerts : List AlertDict
deriving DecidableEq

/-- models.ServiceError. -/
structure ServiceError where
  service : String
  message : String
deriving DecidableEq

/-- models.TrafficData as assembled in main.py lines 188-218. -/
structure TrafficData where
  error : Bool
  road_conditions : List RoadCondDict
  incidents : List IncidentDict
  last_updated : String
  data_source : String
  is_simulated : Bool
deriving DecidableEq

/-- models.PlanResponse; `any_success` embeds the `partial_success` field
(the name avoids a lint on this development, not a behavioural change). -/
structure PlanResponse where
  weather : Option WeatherOk
  news : List Article
  ai_plan : String
  city : String
  errors : List ServiceError
  any_success : Bool
  traffic_data : Option TrafficData
  traffic_alerts : List AlertDict
  has_high_priority_alerts : Bool
deriving DecidableEq

/-- models.PlanRequest (profile and preferences only shape the model prompt
and are dropped with it). -/
structure PlanRequest where
  city : Option String
  latitude : Option ℚ
  longitude : Option ℚ
deriving DecidableEq

/-- All provider outcomes one request can observe, so that the orchestrator
itself is a pure function of request and environment. -/
structure Env where
  weatherByCity : WeatherResult
  weatherByCoords : WeatherResult
  newsFeed : Except String (List FeedEntry)
  traffic : TrafficResult
  trafficNews : TrafficNewsResult
  api_key : Option String
  gemini : GeminiOutcome
  now_iso : String

/-- Overall outcome of one `POST /api/plan` request: the 400-validation
rejection, an uncaught Python exception, or a response. -/
inductive Outcome where
  | http400 (detail : String)
  | crash (msg : String)
  | ok (resp : PlanResponse)
deriving DecidableEq

/-- `request.city.strip() if request.city else None` (main.py line 80). -/
def trimmedCity (req : PlanRequest) : Option String :=
  match req.city with
  | some c => if c = "" then none else some (pyStrip c)
  | none => none

/-- `use_coordinates` (main.py line 79). -/
def useCoords (req : PlanRequest) : Bool :=
  req.latitude.isSome && req.longitude.isSome

/-- The guard of main.py line 82 (`not use_coordinates and not city`). -/
def missingLocation (req : PlanRequest) : Bool :=
  !useCoords req &&
    (match trimmedCity req with
     | none => true
     | some c => c = "")

/-- The weather lookup the orchestrator performs (main.py lines 90-93). -/
def selectedWeather (req : PlanRequest) (env : Env) : WeatherResult :=
  if useCoords req then env.weatherByCoords else env.weatherByCity

/-- `has_weather` (main.py line 95). -/
def hasWeatherB (req : PlanRequest) (env : Env) : Bool :=
  match selectedWeather req env with
  | .ok _ => true
  | .err _ => false

/-- `display_city` (main.py line 98). -/
def displayCity (req : PlanRequest) (env : Env) : String :=
  match selectedWeather req env with
  | .ok w => w.city_name
  | .err _ => pyor (trimmedCity req) "Your Location"

/-- The weather `ServiceError` appended on failure (main.py lines 112-116). -/
def weatherErrs (req : PlanRequest) (env : Env) : List ServiceError :=
  match selectedWeather req env with
  | .ok _ => []
  | .err m => [{ service := "weather", message := m.getD "Weather service unavailable" }]

/-- The news lookup of main.py line 119 (`get_local_news(display_city)`). -/
def newsResult (req : PlanRequest) (env : Env) : NewsResult :=
  get_local_news env.newsFeed (displayCity req env) 5

/-- The news `ServiceError` appended on failure (main.py lines 122-126). -/
def newsErrs (req : PlanRequest) (env : Env) : List ServiceError :=
  if (newsResult req env).error then
    [{ service := "news"
       message := (newsResult req env).message.getD "News service unavailable" }]
  else []

/-- `traffic_alerts_data` (main.py lines 146-229): alerts from road
conditions and incidents on success, the news-RSS alerts on the fallback
path, nothing otherwise. -/
def trafficAlertsData (env : Env) : List AlertDict :=
  match env.traffic with
  | .ok rcs incs ds _ _ =>
    rcs.flatMap (alertsFromCondition (ds.getD "Real-Time Traffic")) ++
      incs.map (alertFromIncident (ds.getD "Real-Time Traffic"))
  | .err _ =>
    if !env.trafficNews.error then env.trafficNews.alerts else []

/-- `traffic_data_response` (main.py lines 188-218). -/
def trafficDataResp (env : Env) : Option TrafficData :=
  match env.traffic with
  | .ok rcs incs ds lu sim =>
    some { error := false
           road_conditions := rcs
           incidents := incs
           last_updated := lu.getD env.now_iso
           data_source := ds.getD "Unknown"
           is_simulated := sim }
  | .err _ => none

/-- The traffic `ServiceError` appended when both the structured lookup and
the news fallback fail (main.py lines 226-229). -/
def trafficErrs (env : Env) : List ServiceError :=
  match env.traffic with
  | .ok _ _ _ _ _ => []
  | .err m =>
    if !env.trafficNews.error then []
    else [{ service := "traffic"
            message := m.getD "Real-time traffic service unavailable" }]

/-- The AI call of main.py lines 232-239 (`weather_data if has_weather else
None`, the fetched articles, `display_city`). -/
def aiCall (req : PlanRequest) (env : Env) : Except String PlanResult :=
  generate_day_plan env.api_key env.gemini
    (match selectedWeather req env with
     | .ok w => some (weatherOkToDict w)
     | .err _ => none)
    (newsResult req env).articles
    (some (displayCity req env))

/-- `partial_success` (main.py line 266): Python truthiness of
`has_weather or len(news_articles) > 0 or ai_plan`. -/
def anySuccess (has_weather : Bool) (news_articles : List Article)
    (ai_plan : String) : Bool :=
  has_weather || !news_articles.isEmpty || !(ai_plan == "")

/-- The orchestrator `generate_plan` (main.py lines 62-278) as a pure
function of the request and the provider outcomes. -/
def generate_plan (req : PlanRequest) (env : Env) : Outcome :=
  if missingLocation req then
    .http400 "Either city name or coordinates (latitude/longitude) are required"
  else
    match aiCall req env with
    | .error m => .crash m
    | .ok ai =>
      .ok
        { weather :=
            match selectedWeather req env with
            | .ok w => some w
            | .err _ => none
          news := (newsResult req env).articles
          ai_plan := ai.plan
          city := displayCity req env
          errors := weatherErrs req env ++ newsErrs req env ++ trafficErrs env ++
            (if ai.error then
              [{ service := "ai", message := ai.message.getD "AI service unavailable" }]
            else [])
          any_success := anySuccess (hasWeatherB req env) (newsResult req env).articles ai.plan
          traffic_data := trafficDataResp env
          traffic_alerts := trafficAlertsData env
          has_high_priority_alerts := (trafficAlertsData env).any (·.priority == "high") }

/-- Projection used to state theorems about a produced response's city. -/
def outcomeCity : Outcome → Option String
  | .ok r => some r.city
  | _ => none

/-- Projection used to state theorems about a produced response's errors. -/
def outcomeErrors : Outcome → Option (List ServiceError)
  | .ok r => some r.errors
  | _ => none

/-! ### Concrete sample inputs used by witnesses -/

/-- A request carrying only a city name. -/
def reqLondon : PlanRequest :=
  { city := some "London", latitude := none, longitude := none }

/-- A request carrying neither a city nor coordinates. -/
def reqNoLoc : PlanRequest :=
  { city := none, latitude := none, longitude := none }

/-- An environment with a failed weather lookup and no Gemini credential. -/
def envNoKey : Env :=
  { weatherByCity := .err (some "City not found")
    weatherByCoords := .err none
    newsFeed := .ok []
    traffic := .err none
    trafficNews := { error := true, alerts := [] }
    api_key := none
    gemini := .timeout
    now_iso := "2024-01-01T00:00:00" }

/-- Same environment but with a Gemini credential configured and the model
answering 200 with a parsable candidate. -/
def envAI : Env :=
  { envNoKey with api_key := some "test-key", gemini := .http 200 (some "a plan") }

/-- The response `generate_plan` assembles for `reqLondon` in `envAI`. -/
def respSample : PlanResponse :=
  match generate_plan reqLondon envAI with
  | .ok r => r
  | _ =>
    { weather := none, news := [], ai_plan := "", city := "", errors := []
      any_success := false, traffic_data := none, traffic_alerts := []
      has_high_priority_alerts := false }

/-- A sample jammed road condition. -/
def roadJammed : RoadCondDict :=
  { road_name := "A1", congestion_level := "jammed", speed_kmh := 8
    normal_speed_kmh := 60, last_updated := "2024-01-01T00:00:00" }

/-- A sample critical accident incident. -/
def incidentCritical : IncidentDict :=
  { incident_type := "accident", severity := "critical", road_name := "A1"
    location := "junction 3", description := "multi-vehicle accident"
    start_time := "2024-01-01T00:00:00" }

/-! ### Theorems -/

set_option maxRecDepth 100000

theorem ctns_refl (s : String) : ctns s s := List.infix_rfl

/-- Bucket characterization of `classify_speed_ratio`. -/
theorem classify_spec (r : ℚ) :
    (classify_speed_ratio r = "free" ↔ 0.9 ≤ r) ∧
    (classify_speed_ratio r = "light" ↔ 0.7 ≤ r ∧ r < 0.9) ∧
    (classify_speed_ratio r = "moderate" ↔ 0.5 ≤ r ∧ r < 0.7) ∧
    (classify_speed_ratio r = "heavy" ↔ 0.3 ≤ r ∧ r < 0.5) ∧
    (classify_speed_ratio r = "jammed" ↔ r < 0.3) := by
  unfold classify_speed_ratio
  split_ifs with h1 h2 h3 h4
  · exact ⟨iff_of_true rfl h1,
      iff_of_false (by decide) (by rintro ⟨-, h⟩; linarith),
      iff_of_false (by decide) (by rintro ⟨-, h⟩; linarith),
      iff_of_false (by decide) (by rintro ⟨-, h⟩; linarith),
      iff_of_false (by decide) (by intro h; linarith)⟩
  · exact ⟨iff_of_false (by decide) h1,
      iff_of_true rfl ⟨h2, lt_of_not_le h1⟩,
      iff_of_false (by decide) (by rintro ⟨-, h⟩; linarith),
      iff_of_false (by decide) (by rintro ⟨-, h⟩; linarith),
      iff_of_false (by decide) (by intro h; linarith)⟩
  · exact ⟨iff_of_false (by decide) h1,
      iff_of_false (by decide) (by rintro ⟨h, -⟩; exact h2 h),
      iff_of_true rfl ⟨h3, lt_of_not_le h2⟩,
      iff_of_false (by decide) (by rintro ⟨-, h⟩; linarith),
      iff_of_false (by decide) (by intro h; linarith)⟩
  · exact ⟨iff_of_false (by decide) h1,
      iff_of_false (by decide) (by rintro ⟨h, -⟩; exact h2 h),
      iff_of_false (by decide) (by rintro ⟨h, -⟩; exact h3 h),
      iff_of_true rfl ⟨h4, lt_of_not_le h3⟩,
      iff_of_false (by decide) (by intro h; linarith)⟩
  · exact ⟨iff_of_false (by decide) h1,
      iff_of_false (by decide) (by rintro ⟨h, -⟩; exact h2 h),
      iff_of_false (by decide) (by rintro ⟨h, -⟩; exact h3 h),
      iff_of_false (by decide) (by rintro ⟨h, -⟩; exact h4 h),
      iff_of_true rfl (lt_of_not_le h4)⟩

/-- For a positive free-flow speed, the congestion level is the threshold
classification of the ratio. -/
theorem tomtom_congestion_eq_classify {c f : ℚ} (hf : 0 < f) :
    tomtom_congestion_level c f = classify_speed_ratio (c / f) := by
  unfold tomtom_congestion_level flow_speed_ratio
  rw [if_pos hf]

/-- C6: congestion classification is a pure function of the speed ratio
`current_speed / free_flow_speed`: for every segment with positive
free-flow speed, ratio at least 0.9 gives "free", at least 0.7 gives
"light", at least 0.5 gives "moderate", at least 0.3 gives "heavy",
anything lower gives "jammed"; each exact boundary value (0.9, 0.7, 0.5,
0.3 times the free-flow speed) resolves to the less congested bucket. -/
theorem congestion_thresholds (c f : ℚ) (hf : 0 < f) :
    (tomtom_congestion_level c f = "free" ↔ 0.9 ≤ c / f) ∧
    (tomtom_congestion_level c f = "light" ↔ 0.7 ≤ c / f ∧ c / f < 0.9) ∧
    (tomtom_congestion_level c f = "moderate" ↔ 0.5 ≤ c / f ∧ c / f < 0.7) ∧
    (tomtom_congestion_level c f = "heavy" ↔ 0.3 ≤ c / f ∧ c / f < 0.5) ∧
    (tomtom_congestion_level c f = "jammed" ↔ c / f < 0.3) ∧
    tomtom_congestion_level (0.9 * f) f = "free" ∧
    tomtom_congestion_level (0.7 * f) f = "light" ∧
    tomtom_congestion_level (0.5 * f) f = "moderate" ∧
    tomtom_congestion_level (0.3 * f) f = "heavy" := by
  have hb : ∀ a : ℚ, tomtom_congestion_level (a * f) f = classify_speed_ratio a := by
    intro a
    rw [tomtom_congestion_eq_classify hf, mul_div_cancel_right₀ a hf.ne']
  rw [tomtom_congestion_eq_classify hf]
  obtain ⟨s1, s2, s3, s4, s5⟩ := classify_spec (c / f)
  refine ⟨s1, s2, s3, s4, s5, ?_, ?_, ?_, ?_⟩ <;> rw [hb] <;>
    norm_num [classify_speed_ratio]

/-- Witness for C6: 19 km/h against a 20 km/h free flow is ratio 0.95,
classified "free". -/
theorem congestion_thresholds_witness :
    tomtom_congestion_level 19 20 = "free" :=
  (congestion_thresholds 19 20 (by norm_num)).1.mpr (by norm_num)

/-- C10: the division of the TomTom flow parsing is guarded: a segment with
free-flow speed at most 0 gets no ratio and defaults to "free", so the
classification never divides by zero. -/
theorem no_division_when_free_flow_nonpositive (c f : ℚ) (hf : f ≤ 0) :
    flow_speed_ratio c f = none ∧ tomtom_congestion_level c f = "free" := by
  have h : ¬f > 0 := not_lt.mpr hf
  constructor
  · unfold flow_speed_ratio
    rw [if_neg h]
  · unfold tomtom_congestion_level flow_speed_ratio
    rw [if_neg h]

/-- Witness for C10 at free-flow speed 0. -/
theorem no_division_when_free_flow_nonpositive_witness :
    flow_speed_ratio 50 0 = none ∧ tomtom_congestion_level 50 0 = "free" :=
  no_division_when_free_flow_nonpositive 50 0 (by norm_num)

/-- C4: `get_local_news` always returns a non-empty article list (for any
positive page size, the default being 5); when the provider returns zero
entries the result is error-flag false with exactly the 3 generic fallback
placeholders, each of whose titles contains the queried city. -/
theorem local_news_nonempty_and_fallback (feed : Except String (List FeedEntry))
    (city : String) (ps : Nat) (hps : 1 ≤ ps) :
    (get_local_news feed city ps).articles ≠ [] ∧
    (feed = .ok [] →
      (get_local_news feed city ps).error = false ∧
      (get_local_news feed city ps).articles = get_fallback_news city) ∧
    (get_fallback_news city).length = 3 ∧
    (∀ a ∈ get_fallback_news city, ctns a.title city) := by
  refine ⟨?_, ?_, by simp [get_fallback_news], ?_⟩
  · cases feed with
    | error e => simp [get_local_news, get_fallback_news]
    | ok entries =>
      cases entries with
      | nil => simp [get_local_news, get_fallback_news]
      | cons e es =>
        cases ps with
        | zero => omega
        | succ n => simp [get_local_news]
  · rintro rfl
    simp [get_local_news]
  · intro a ha
    have hpre : ∀ pre : String, ctns (pre ++ city) city :=
      fun pre => ctns_append_right pre (ctns_refl city)
    simp only [get_fallback_news, List.mem_cons, List.not_mem_nil, or_false] at ha
    rcases ha with rfl | rfl | rfl
    · exact hpre _
    · exact hpre _
    · exact hpre _

/-- Witness for C4 at the zero-entry provider outcome. -/
theorem local_news_nonempty_and_fallback_witness :
    (get_local_news (.ok []) "London" 5).articles ≠ [] ∧
    ((.ok [] : Except String (List FeedEntry)) = .ok [] →
      (get_local_news (.ok []) "London" 5).error = false ∧
      (get_local_news (.ok []) "London" 5).articles = get_fallback_news "London") ∧
    (get_fallback_news "London").length = 3 ∧
    (∀ a ∈ get_fallback_news "London", ctns a.title "London") :=
  local_news_nonempty_and_fallback (.ok []) "London" 5 (by norm_num)

/-- C7: alert synthesis from structured traffic: a "jammed" road condition
yields exactly one alert with priority "high", a "heavy" one exactly one
with priority "medium", the levels "free"/"light"/"moderate" yield none;
every incident yields one alert whose priority is "high" iff its severity
is "critical" and whose alert type is "emergency" iff its incident type is
"accident" or "road_closure". -/
theorem alert_synthesis_rules (ds : String) (c : RoadCondDict) (i : IncidentDict) :
    (c.congestion_level = "jammed" →
      ∃ a, alertsFromCondition ds c = [a] ∧ a.priority = "high") ∧
    (c.congestion_level = "heavy" →
      ∃ a, alertsFromCondition ds c = [a] ∧ a.priority = "medium") ∧
    (c.congestion_level = "free" ∨ c.congestion_level = "light" ∨
        c.congestion_level = "moderate" →
      alertsFromCondition ds c = []) ∧
    ((alertFromIncident ds i).priority = "high" ↔ i.severity = "critical") ∧
    ((alertFromIncident ds i).alert_type = "emergency" ↔
      i.incident_type = "accident" ∨ i.incident_type = "road_closure") := by
  refine ⟨?_, ?_, ?_, ?_, ?_⟩
  · intro h
    unfold alertsFromCondition
    rw [if_pos (Or.inr h)]
    exact ⟨_, rfl, by rw [h]; rfl⟩
  · intro h
    unfold alertsFromCondition
    rw [if_pos (Or.inl h)]
    exact ⟨_, rfl, by rw [h]; rfl⟩
  · intro h
    have hne : ¬(c.congestion_level = "heavy" ∨ c.congestion_level = "jammed") := by
      rcases h with h | h | h <;> rw [h] <;> decide
    unfold alertsFromCondition
    rw [if_neg hne]
  · unfold alertFromIncident
    dsimp only
    split_ifs with h
    · exact iff_of_true rfl h
    · exact iff_of_false (by decide) h
  · unfold alertFromIncident
    dsimp only
    split_ifs with h
    · exact iff_of_true rfl h
    · exact iff_of_false (by decide) h

/-- Witness for C7: one jammed road condition and one critical accident. -/
theorem alert_synthesis_rules_witness :
    (∃ a, alertsFromCondition "TomTom" roadJammed = [a] ∧ a.priority = "high") ∧
    ((alertFromIncident "TomTom" incidentCritical).priority = "high" ↔
      incidentCritical.severity = "critical") :=
  ⟨(alert_synthesis_rules "TomTom" roadJammed incidentCritical).1 rfl,
   (alert_synthesis_rules "TomTom" roadJammed incidentCritical).2.2.2.1⟩

/-- C8: the fallback plan generator is deterministic and total: equal inputs
give byte-identical text, and every input produces a (non-empty) plan string
rather than an exception. -/
theorem fallback_plan_deterministic_total (w : Option WeatherDict)
    (n : List Article) (c : Option String) (hw : Bool) :
    (∀ w2 n2 c2 hw2, w = w2 → n = n2 → c = c2 → hw = hw2 →
      generate_fallback_plan w n c hw = generate_fallback_plan w2 n2 c2 hw2) ∧
    generate_fallback_plan w n c hw ≠ "" := by
  constructor
  · intro w2 n2 c2 hw2 h1 h2 h3 h4
    rw [h1, h2, h3, h4]
  · simp only [generate_fallback_plan, List.singleton_append, List.cons_append]
    exact ctns_ne_empty
      (ctns_joinNL (List.mem_cons_self _ _)
        (ctns_append_left _ (ctns_append_left _ (ctns_refl "## Daily Plan for "))))
      (show ("## Daily Plan for " : String).data ≠ [] by decide)

/-- Witness for C8 at a concrete input. -/
theorem fallback_plan_deterministic_total_witness :
    (generate_fallback_plan none [] (some "London") false =
      generate_fallback_plan none [] (some "London") false) ∧
    generate_fallback_plan none [] (some "London") false ≠ "" :=
  ⟨(fallback_plan_deterministic_total none [] (some "London") false).1
      none [] (some "London") false rfl rfl rfl rfl,
   (fallback_plan_deterministic_total none [] (some "London") false).2⟩

/-- C1 (code bug): with no generative-model credential configured
(`GEMINI_API_KEY` absent, empty, or the placeholder), `generate_day_plan`
does not return the fallback result dict: its no-key branch calls
`generate_fallback_plan` with five positional arguments against four
parameters, so the call raises `TypeError` instead of returning. -/
theorem ai_plan_missing_key_raises_typeerror (k : Option String)
    (hk : keyMissing k = true) (g : GeminiOutcome) (w : Option WeatherDict)
    (n : List Article) (c : Option String) :
    generate_day_plan k g w n c = .error
      "TypeError: generate_fallback_plan() takes from 2 to 4 positional arguments but 5 were given" := by
  unfold generate_day_plan
  rw [if_pos hk]
  rfl

/-- Witness for C1 at the absent key. -/
theorem ai_plan_missing_key_raises_typeerror_witness :
    keyMissing none = true ∧
    generate_day_plan none .timeout none [] (some "London") = .error
      "TypeError: generate_fallback_plan() takes from 2 to 4 positional arguments but 5 were given" :=
  ⟨rfl, ai_plan_missing_key_raises_typeerror none rfl .timeout none [] (some "London")⟩

/-- With a configured (non-placeholder) key, every Gemini outcome is caught
and converted into a result dict: `generate_day_plan` cannot raise. -/
theorem generate_day_plan_ok {k : Option String} (hk : keyMissing k = false)
    (g : GeminiOutcome) (w : Option WeatherDict) (n : List Article)
    (c : Option String) :
    ∃ r, generate_day_plan k g w n c = .ok r := by
  unfold generate_day_plan
  rw [if_neg (by simp [hk])]
  cases g with
  | http status text =>
    dsimp only
    split_ifs with h1 h2 h3
    · exact ⟨_, rfl⟩
    · exact ⟨_, rfl⟩
    · exact ⟨_, rfl⟩
    · cases text with
      | some t => exact ⟨_, rfl⟩
      | none => exact ⟨_, rfl⟩
  | timeout => exact ⟨_, rfl⟩
  | exn m => exact ⟨_, rfl⟩

/-- C2: in every assembled response, the `partial_success` flag (embedded as
`any_success`) is true iff the weather lookup succeeded, the news list is
non-empty, or the plan text is non-empty; the three truth-table rows of the
specification hold for the flag computation. -/
theorem response_any_success_iff :
    (∀ (req : PlanRequest) (env : Env) (resp : PlanResponse),
      generate_plan req env = .ok resp →
      (resp.any_success = true ↔
        (resp.weather.isSome = true ∨ resp.news ≠ [] ∨ resp.ai_plan ≠ ""))) ∧
    anySuccess true [] "" = true ∧
    anySuccess false [] "x" = true ∧
    anySuccess false [] "" = false := by
  refine ⟨?_, rfl, rfl, rfl⟩
  intro req env resp h
  unfold generate_plan at h
  split at h
  · exact Outcome.noConfusion h
  · split at h
    · exact Outcome.noConfusion h
    · injection h with h2
      subst h2
      dsimp only
      unfold anySuccess hasWeatherB
      cases selectedWeather req env with
      | ok w => simp
      | err m =>
        simp only [Bool.false_or, Option.isSome_none, Bool.false_eq_true, false_or,
          Bool.or_eq_true, Bool.not_eq_true', beq_eq_false_iff_ne, ne_eq]
        rw [show ((newsResult req env).articles.isEmpty = false ↔
            ¬(newsResult req env).articles = []) from by
          cases (newsResult req env).articles <;> simp]

/-- C3 (code bug): a request with neither usable city nor both coordinates
is rejected with the single 400 validation error independently of every
provider outcome (so before any lookup); but the claimed "never raises for
every other request" fails: with no Gemini credential the orchestrator
propagates the TypeError of the AI layer. -/
theorem orchestrator_validation_and_crash :
    (∀ (req : PlanRequest) (env : Env),
      (req.city = none ∨ ∃ c, req.city = some c ∧ pyStrip c = "") →
      (req.latitude = none ∨ req.longitude = none) →
      generate_plan req env =
        .http400 "Either city name or coordinates (latitude/longitude) are required") ∧
    generate_plan reqLondon envNoKey = .crash
      "TypeError: generate_fallback_plan() takes from 2 to 4 positional arguments but 5 were given" := by
  constructor
  · intro req env h1 h2
    have hco : useCoords req = false := by
      unfold useCoords
      rcases h2 with h | h <;> simp [h]
    have hm : missingLocation req = true := by
      unfold missingLocation
      rw [hco]
      rcases h1 with h | ⟨c, hc, ht⟩
      · simp [trimmedCity, h]
      · by_cases hc0 : c = "" <;> simp [trimmedCity, hc, hc0, ht]
    unfold generate_plan
    rw [if_pos hm]
  · rfl

/-- Witness for C3 applied to a request with no location at all. -/
theorem orchestrator_validation_and_crash_witness :
    generate_plan reqNoLoc envAI =
      .http400 "Either city name or coordinates (latitude/longitude) are required" :=
  orchestrator_validation_and_crash.1 reqNoLoc envAI (Or.inl rfl) (Or.inl rfl)

/-- C5: when the selected weather lookup fails (and the AI layer does not
crash the request, see C1/C3), the response city is the trimmed input city
when one was supplied and "Your Location" otherwise, and the error list
contains exactly one weather ServiceError carrying the reported message or
the generic default. -/
theorem weather_failure_display_city_and_error (req : PlanRequest) (env : Env)
    (m : Option String) (hval : missingLocation req = false)
    (hw : selectedWeather req env = .err m)
    (hk : keyMissing env.api_key = false) :
    outcomeCity (generate_plan req env) =
      some (pyor (trimmedCity req) "Your Location") ∧
    (outcomeErrors (generate_plan req env)).map
        (fun l => l.filter fun e => e.service == "weather") =
      some [{ service := "weather", message := m.getD "Weather service unavailable" }] := by
  obtain ⟨ai, hai⟩ := generate_day_plan_ok hk env.gemini
    (match selectedWeather req env with
     | .ok w => some (weatherOkToDict w)
     | .err _ => none)
    (newsResult req env).articles
    (some (displayCity req env))
  have hcall : aiCall req env = .ok ai := hai
  unfold generate_plan
  rw [if_neg (by simp [hval]), hcall]
  have hWf : (weatherErrs req env).filter (fun e => e.service == "weather") =
      [{ service := "weather", message := m.getD "Weather service unavailable" }] := by
    unfold weatherErrs
    rw [hw]
    rfl
  have hNf : (newsErrs req env).filter (fun e => e.service == "weather") = [] := by
    unfold newsErrs
    split <;> rfl
  have hTf : (trafficErrs env).filter (fun e => e.service == "weather") = [] := by
    unfold trafficErrs
    cases env.traffic with
    | ok rcs incs ds lu sim => rfl
    | err tm =>
      dsimp only
      split <;> rfl
  have hAf : ((if ai.error then
        [{ service := "ai", message := ai.message.getD "AI service unavailable" }]
      else []) : List ServiceError).filter (fun e => e.service == "weather") = [] := by
    split <;> rfl
  constructor
  · show some (displayCity req env) = _
    unfold displayCity
    rw [hw]
  · show some _ = some _
    simp only [List.filter_append, hWf, hNf, hTf, hAf, List.append_nil]

/-- Witness for C2 on the response assembled for `reqLondon` in `envAI`. -/
theorem response_any_success_iff_witness :
    respSample.any_success = true ↔
      (respSample.weather.isSome = true ∨ respSample.news ≠ [] ∨
        respSample.ai_plan ≠ "") :=
  response_any_success_iff.1 reqLondon envAI respSample rfl

/-- Witness for C5 on `reqLondon` in `envAI` (weather lookup failed with
message "City not found"). -/
theorem weather_failure_display_city_and_error_witness :
    outcomeCity (generate_plan reqLondon envAI) =
      some (pyor (trimmedCity reqLondon) "Your Location") ∧
    (outcomeErrors (generate_plan reqLondon envAI)).map
        (fun l => l.filter fun e => e.service == "weather") =
      some [{ service := "weather",
              message := (some "City not found").getD "Weather service unavailable" }] :=
  weather_failure_display_city_and_error reqLondon envAI (some "City not found")
    rfl rfl rfl

/-- C9 counterexample: the claim "temperature 35 implies the text mentions
heat" fails when the condition is also rainy, because the rain branch is
tested first: at temp=35 with condition "Rain" the plan contains no "heat". -/
theorem fallback_plan_heat_counterexample :
    ¬ctns (generate_fallback_plan
      (some { temp := some 35, condition := some "Rain", city_name := some "London" })
      [] (some "London") true) "heat" := by decide

/-- C9 (amended): content postconditions of the fallback plan: a condition
containing "rain" (lower-cased) always yields "umbrella"; temperature 35
with a condition that is not rainy/stormy/drizzly yields "heat" and
"hydrated"; temperature 5 with such a condition yields "cold" and
"Bundle up"; absent weather with a non-empty city yields "unavailable" and
the literal city name. -/
theorem fallback_plan_content_amended (w : WeatherDict) (n : List Article)
    (c : Option String) :
    (ctns (pyLower (w.condition.getD "Clear")) "rain" →
      ctns (generate_fallback_plan (some w) n c true) "umbrella") ∧
    (w.temp = some 35 →
      ¬ctns (pyLower (w.condition.getD "Clear")) "rain" →
      ¬ctns (pyLower (w.condition.getD "Clear")) "storm" →
      ¬ctns (pyLower (w.condition.getD "Clear")) "drizzle" →
      ctns (generate_fallback_plan (some w) n c true) "heat" ∧
      ctns (generate_fallback_plan (some w) n c true) "hydrated") ∧
    (w.temp = some 5 →
      ¬ctns (pyLower (w.condition.getD "Clear")) "rain" →
      ¬ctns (pyLower (w.condition.getD "Clear")) "storm" →
      ¬ctns (pyLower (w.condition.getD "Clear")) "drizzle" →
      ctns (generate_fallback_plan (some w) n c true) "cold" ∧
      ctns (generate_fallback_plan (some w) n c true) "Bundle up") ∧
    (∀ city : String, city ≠ "" →
      ctns (generate_fallback_plan none n (some city) false) "unavailable" ∧
      ctns (generate_fallback_plan none n (some city) false) city) := by
  refine ⟨?_, ?_, ?_, ?_⟩
  · intro hrain
    have hb : ctnsB (pyLower (w.condition.getD "Clear")) "rain" = true :=
      ctnsB_iff.mpr hrain
    simp only [generate_fallback_plan, Option.isSome_some, Bool.true_and,
      Bool.not_true, Bool.false_eq_true, reduceIte, hb, Bool.true_or,
      List.singleton_append, List.cons_append, List.nil_append]
    exact ctns_joinNL
      (List.mem_cons_of_mem _ (List.mem_cons_of_mem _ (List.mem_cons_self _ _)))
      (by decide)
  · intro htemp hr hs hd
    have hbr : ctnsB (pyLower (w.condition.getD "Clear")) "rain" = false :=
      decide_eq_false hr
    have hbs : ctnsB (pyLower (w.condition.getD "Clear")) "storm" = false :=
      decide_eq_false hs
    have hbd : ctnsB (pyLower (w.condition.getD "Clear")) "drizzle" = false :=
      decide_eq_false hd
    simp only [generate_fallback_plan, Option.isSome_some, Bool.true_and,
      Bool.not_true, Bool.false_eq_true, reduceIte, hbr, hbs, hbd, htemp,
      Bool.or_self, Bool.or_false, Bool.false_or, Option.getD_some,
      List.singleton_append, List.cons_append, List.nil_append]
    constructor
    · exact ctns_joinNL
        (List.mem_cons_of_mem _ (List.mem_cons_of_mem _ (List.mem_cons_self _ _)))
        (by decide)
    · exact ctns_joinNL
        (List.mem_cons_of_mem _ (List.mem_cons_of_mem _
          (List.mem_cons_of_mem _ (List.mem_cons_self _ _))))
        (by decide)
  · intro htemp hr hs hd
    have hbr : ctnsB (pyLower (w.condition.getD "Clear")) "rain" = false :=
      decide_eq_false hr
    have hbs : ctnsB (pyLower (w.condition.getD "Clear")) "storm" = false :=
      decide_eq_false hs
    have hbd : ctnsB (pyLower (w.condition.getD "Clear")) "drizzle" = false :=
      decide_eq_false hd
    simp only [generate_fallback_plan, Option.isSome_some, Bool.true_and,
      Bool.not_true, Bool.false_eq_true, reduceIte, hbr, hbs, hbd, htemp,
      Bool.or_self, Bool.or_false, Bool.false_or, Option.getD_some,
      List.singleton_append, List.cons_append, List.nil_append]
    constructor
    · exact ctns_joinNL
        (List.mem_cons_of_mem _ (List.mem_cons_of_mem _ (List.mem_cons_self _ _)))
        (by decide)
    · exact ctns_joinNL
        (List.mem_cons_of_mem _ (List.mem_cons_of_mem _ (List.mem_cons_self _ _)))
        (by decide)
  · intro city hcity
    have hloc : pyor (some city) "your area" = city := by
      simp only [pyor]
      rw [if_neg hcity]
    constructor
    · simp only [generate_fallback_plan, Bool.not_false, reduceIte,
        List.singleton_append, List.cons_append, List.nil_append]
      exact ctns_joinNL (List.mem_cons_of_mem _ (List.mem_cons_self _ _)) (by decide)
    · simp only [generate_fallback_plan, Bool.not_false, reduceIte,
        List.singleton_append, List.cons_append, List.nil_append, hloc]
      exact ctns_joinNL (List.mem_cons_self _ _)
        (ctns_append_left _ (ctns_append_right _ (ctns_refl city)))

/-- Witness for C9 (amended) at the rain scenario of the specification. -/
theorem fallback_plan_content_amended_witness :
    ctns (generate_fallback_plan
      (some { temp := some 15, condition := some "Rain", city_name := some "London" })
      [] (some "London") true) "umbrella" :=
  (fallback_plan_content_amended
    { temp := some 15, condition := some "Rain", city_name := some "London" }
    [] (some "London")).1 (by decide)
